import Mathlib

/-!
Shallow embedding of the replication update command from
nominatim/clicmd/replication.py (class UpdateReplication).

Timestamps are modelled as integers counting microseconds since some
epoch, matching the microsecond resolution of Python datetime values.
The loop body performs external effects (database connections, status
writes, indexing, sleeping); these are modelled as an explicit trace of
events emitted by one iteration.  Nondeterministic inputs of an
iteration (the clock readings, the outcome of replication.update, the
batch date read from the status table, whether warning-level logging is
enabled) are supplied as an oracle record per iteration.
-/

namespace Replication

/-- Command line arguments of the update sub-command that the update
loop consumes: the once flag, the indexing flag and the thread count
(None when the option was not given). -/
structure Args where
  once : Bool
  do_index : Bool
  threads : Option Nat
deriving DecidableEq

/-- Configuration values read through args.config in the source. -/
structure Config where
  REPLICATION_URL : String
  REPLICATION_UPDATE_INTERVAL : Int
  REPLICATION_MAX_DIFF : Int
  REPLICATION_RECHECK_INTERVAL : Int
deriving DecidableEq

/-- Modelled from the spec: the UpdateState enumeration returned by
replication.update is defined in nominatim/tools/replication.py, which
is not among the sources here.  The spec describes it as an enumerated
outcome, NoChanges or Changed, carrying a numeric value that the loop
returns as its exit code.  We model a value of that enumeration by
whether it differs from the NO_CHANGES member (the only test the loop
performs on it) together with its numeric value. -/
structure UpdateState where
  changed : Bool
  value : Nat
deriving DecidableEq

/-- Python substring membership test: pat in s. -/
def strContains (s pat : String) : Bool :=
  decide (pat.toList <:+: s.toList)

/-- The parameter dictionary assembled at the start of UpdateReplication.
The osm2pgsql tool options merged in from osm2pgsql_options_from_args
(tool path, cache size, style file, dsn, flatnode file) are opaque
strings never inspected by the loop and are omitted; the fields the
loop logic reads are kept. -/
structure Params where
  base_url : String
  update_interval : Int
  max_diff_size : Int
  indexed_only : Bool
deriving DecidableEq

/-- Assembly of the params dictionary from the arguments and the
configuration, following lines 102 to 107 of the source. -/
def mkParams (args : Args) (cfg : Config) : Params :=
  { base_url := cfg.REPLICATION_URL
    update_interval := cfg.REPLICATION_UPDATE_INTERVAL
    max_diff_size := cfg.REPLICATION_MAX_DIFF
    indexed_only := !args.once }

/-- Number of microseconds in a second. -/
def usecPerSec : Int := 1000000

/-- round_time from UpdateReplication.report_update: build a timedelta
from int(delta.total_seconds()).  Python int() truncates toward zero,
so on microsecond deltas this is truncating division by 10^6. -/
def round_time (delta : Int) : Int :=
  delta.tdiv usecPerSec

/-- The four quantities interpolated into the report line emitted by
UpdateReplication.report_update: import duration, optional indexing
duration, total duration and remaining backlog, each in whole seconds. -/
structure Report where
  importTime : Int
  indexTime : Option Int
  totalTime : Int
  remainingBacklog : Int
deriving DecidableEq

/-- UpdateReplication.report_update: end is the current clock reading
taken inside the function, passed here explicitly.  start_index is None
when indexing did not run; Python evaluates (start_index or end) to end
in that case because None is falsy and datetimes are truthy. -/
def report_update (batchdate start_import : Int) (start_index : Option Int)
    (endTime : Int) : Report :=
  { importTime := round_time ((start_index.getD endTime) - start_import)
    indexTime := start_index.map (fun s => round_time (endTime - s))
    totalTime := round_time (endTime - start_import)
    remainingBacklog := round_time (endTime - batchdate) }

/-- One observable step performed by the loop body: store connections
opening and closing, the replication.update call, status table reads and
writes, indexer construction and its two phases, the report line, and
sleeping for a number of seconds. -/
inductive Event where
  | connOpen : Event
  | applyCall : Event
  | logStatusEv : Int → String → Event
  | getStatusEv : Event
  | connClose : Event
  | indexerCreate : Nat → Event
  | indexBoundaries : Int → Int → Event
  | indexByRank : Int → Int → Event
  | setIndexedEv : Bool → Event
  | reportEv : Report → Event
  | sleepEv : Int → Event
deriving DecidableEq

/-- Oracle inputs of one loop iteration: the clock at loop start, the
outcome of replication.update, the batch date read back by get_status,
the clock when indexing starts, the clock taken inside report_update,
and whether the logger is enabled for warnings. -/
structure IterInput where
  startTime : Int
  state : UpdateState
  batchdate : Int
  indexTime : Int
  endTime : Int
  logEnabled : Bool
deriving DecidableEq

/-- Thread count handed to the Indexer: args.threads or 1 in Python,
where both None and 0 are falsy. -/
def indexerThreads (args : Args) : Nat :=
  match args.threads with
  | none => 1
  | some 0 => 1
  | some n => n

/-- The trace of events of one iteration of the while loop, lines 124
to 155 of the source: connect, record the start time, call
replication.update, log the import status when something changed, read
the status back, close the connection; when something changed and
indexing is on, record the index start time, build an Indexer and run
its two phases, then on a fresh connection set the indexed flag and log
the index status; report when warning logging is enabled; finally, when
not in once mode and nothing changed, sleep for the recheck interval. -/
def iterEvents (args : Args) (cfg : Config) (inp : IterInput) : List Event :=
  [Event.connOpen, Event.applyCall]
  ++ (if inp.state.changed then [Event.logStatusEv inp.startTime "import"] else [])
  ++ [Event.getStatusEv, Event.connClose]
  ++ (if inp.state.changed && args.do_index then
        [Event.indexerCreate (indexerThreads args),
         Event.indexBoundaries 0 30, Event.indexByRank 0 30,
         Event.connOpen, Event.setIndexedEv true,
         Event.logStatusEv inp.indexTime "index", Event.connClose]
      else [])
  ++ (if inp.logEnabled then
        [Event.reportEv (report_update inp.batchdate inp.startTime
          (if inp.state.changed && args.do_index then some inp.indexTime else none)
          inp.endTime)]
      else [])
  ++ (if !args.once && !inp.state.changed then
        [Event.sleepEv cfg.REPLICATION_RECHECK_INTERVAL]
      else [])

/-- The while loop, driven by a finite script of per-iteration oracle
inputs.  In once mode the loop breaks after the first iteration and
yields its final state; in continuous mode it consumes the whole script
(the real loop runs forever, so no final state is produced). -/
def loopRun (args : Args) (cfg : Config) : List IterInput → List Event × Option UpdateState
  | [] => ([], none)
  | inp :: rest =>
      let tr := iterEvents args cfg inp
      if args.once then
        (tr, some inp.state)
      else
        let r := loopRun args cfg rest
        (tr ++ r.1, r.2)

/-- Message of the UsageError raised by the Geofabrik interval check. -/
def intervalError : String := "Invalid replication update interval setting."

/-- Message of the UsageError raised when indexing is disabled in
continuous mode. -/
def noIndexError : String := "Bad argument \x27--no-index\x27."

/-- The Geofabrik sanity check of lines 109 to 111: the base URL
contains download.geofabrik.de and the update interval is below 86400
seconds. -/
def geofabrikGuard (p : Params) : Bool :=
  strContains p.base_url "download.geofabrik.de" && decide (p.update_interval < 86400)

/-- UpdateReplication.update: assemble params, run the two validation
checks in source order (each raising a UsageError, modelled as an error
result carrying the message), then enter the loop.  The returned pair
is the event trace together with the exit value state.value when the
loop terminated via break in once mode. -/
def update (args : Args) (cfg : Config) (inputs : List IterInput) :
    Except String (List Event × Option Nat) :=
  let params := mkParams args cfg
  if geofabrikGuard params then
    Except.error intervalError
  else if !args.once && !args.do_index then
    Except.error noIndexError
  else
    let r := loopRun args cfg inputs
    Except.ok (r.1, r.2.map UpdateState.value)

/-- Change in the number of open store connections caused by one
event. -/
def connDelta : Event → Int
  | Event.connOpen => 1
  | Event.connClose => -1
  | _ => 0

/-- Events during which no store connection may be held open: the two
indexing phases and the recheck sleep. -/
def mustBeUnconnected : Event → Bool
  | Event.indexBoundaries _ _ => true
  | Event.indexByRank _ _ => true
  | Event.sleepEv _ => true
  | _ => false

/-- Walk a trace keeping the running count of open store connections,
checking that the count is zero whenever an indexing phase runs or the
loop sleeps. -/
def connsOK : Int → List Event → Bool
  | _, [] => true
  | n, e :: rest =>
      (!mustBeUnconnected e || decide (n = 0)) && connsOK (n + connDelta e) rest

/-- Number of store connections left open by a whole trace. -/
def openConns (tr : List Event) : Int :=
  tr.foldl (fun n e => n + connDelta e) 0

/-- Sample arguments: single run with indexing. -/
def argsOnce : Args := { once := true, do_index := true, threads := some 2 }

/-- Sample arguments: continuous mode with indexing. -/
def argsCont : Args := { once := false, do_index := true, threads := none }

/-- Sample arguments: continuous mode with indexing disabled. -/
def argsContNoIdx : Args := { once := false, do_index := false, threads := none }

/-- Sample configuration pointing at a non Geofabrik host with a short
update interval. -/
def cfg0 : Config :=
  { REPLICATION_URL := "https://planet.openstreetmap.org/replication/minute"
    REPLICATION_UPDATE_INTERVAL := 75
    REPLICATION_MAX_DIFF := 50
    REPLICATION_RECHECK_INTERVAL := 60 }

/-- Sample configuration pointing at the Geofabrik host with an update
interval below one day. -/
def cfgGeo : Config :=
  { REPLICATION_URL := "https://download.geofabrik.de/europe/germany-updates"
    REPLICATION_UPDATE_INTERVAL := 3600
    REPLICATION_MAX_DIFF := 50
    REPLICATION_RECHECK_INTERVAL := 900 }

/-- Sample configuration pointing at the Geofabrik host with an update
interval of exactly one day. -/
def cfgGeoSlow : Config :=
  { REPLICATION_URL := "https://download.geofabrik.de/europe/germany-updates"
    REPLICATION_UPDATE_INTERVAL := 86400
    REPLICATION_MAX_DIFF := 50
    REPLICATION_RECHECK_INTERVAL := 900 }

/-- Sample iteration oracle where the apply call found no changes. -/
def inpNC : IterInput :=
  { startTime := 0
    state := { changed := false, value := 3 }
    batchdate := -300 * usecPerSec
    indexTime := 1 * usecPerSec
    endTime := 2 * usecPerSec
    logEnabled := true }

/-- Sample iteration oracle where the apply call applied changes. -/
def inpCH : IterInput :=
  { startTime := 0
    state := { changed := true, value := 0 }
    batchdate := -300 * usecPerSec
    indexTime := 1 * usecPerSec
    endTime := 2 * usecPerSec
    logEnabled := true }

/-- Shape of an iteration trace when replication.update reported
NO_CHANGES: no import log, no indexing block, an optional report, and a
sleep exactly when the loop is continuous. -/
theorem iterEvents_noChanges (args : Args) (cfg : Config) (inp : IterInput)
    (hc : inp.state.changed = false) :
    iterEvents args cfg inp =
      [Event.connOpen, Event.applyCall, Event.getStatusEv, Event.connClose]
      ++ (if inp.logEnabled then
            [Event.reportEv (report_update inp.batchdate inp.startTime none inp.endTime)]
          else [])
      ++ (if args.once then [] else [Event.sleepEv cfg.REPLICATION_RECHECK_INTERVAL]) := by
  cases ho : args.once <;> simp [iterEvents, hc, ho]

/-- Shape of an iteration trace when replication.update reported a
change and indexing is enabled: import log, the full indexing block, an
optional report, and never a sleep. -/
theorem iterEvents_changed (args : Args) (cfg : Config) (inp : IterInput)
    (hc : inp.state.changed = true) (hi : args.do_index = true) :
    iterEvents args cfg inp =
      [Event.connOpen, Event.applyCall, Event.logStatusEv inp.startTime "import",
       Event.getStatusEv, Event.connClose,
       Event.indexerCreate (indexerThreads args),
       Event.indexBoundaries 0 30, Event.indexByRank 0 30,
       Event.connOpen, Event.setIndexedEv true,
       Event.logStatusEv inp.indexTime "index", Event.connClose]
      ++ (if inp.logEnabled then
            [Event.reportEv (report_update inp.batchdate inp.startTime
              (some inp.indexTime) inp.endTime)]
          else []) := by
  simp [iterEvents, hc, hi]

/-- Shape of an iteration trace when replication.update reported a
change but indexing is disabled: import log, no indexing block, an
optional report, and never a sleep. -/
theorem iterEvents_changed_noIndex (args : Args) (cfg : Config) (inp : IterInput)
    (hc : inp.state.changed = true) (hi : args.do_index = false) :
    iterEvents args cfg inp =
      [Event.connOpen, Event.applyCall, Event.logStatusEv inp.startTime "import",
       Event.getStatusEv, Event.connClose]
      ++ (if inp.logEnabled then
            [Event.reportEv (report_update inp.batchdate inp.startTime none inp.endTime)]
          else []) := by
  simp [iterEvents, hc, hi]

/-- C1: in an iteration where the apply call returns NO_CHANGES, no log
entry for the import status is written, the indexing engine is never
invoked, and in continuous mode the iteration ends with a sleep of
exactly the configured recheck interval (every sleep of the iteration
uses that interval), after which the next iteration of the loop, and
hence the next apply call, follows directly. -/
theorem noop_iteration (args : Args) (cfg : Config) (inp : IterInput)
    (hc : inp.state.changed = false) :
    (∀ t, Event.logStatusEv t "import" ∉ iterEvents args cfg inp) ∧
    (∀ a b, Event.indexBoundaries a b ∉ iterEvents args cfg inp) ∧
    (∀ a b, Event.indexByRank a b ∉ iterEvents args cfg inp) ∧
    (args.once = false →
      (iterEvents args cfg inp).getLast? =
        some (Event.sleepEv cfg.REPLICATION_RECHECK_INTERVAL) ∧
      (∀ s, Event.sleepEv s ∈ iterEvents args cfg inp →
        s = cfg.REPLICATION_RECHECK_INTERVAL) ∧
      (∀ rest, (loopRun args cfg (inp :: rest)).1 =
        iterEvents args cfg inp ++ (loopRun args cfg rest).1)) := by
  have hsh := iterEvents_noChanges args cfg inp hc
  refine ⟨?_, ?_, ?_, fun ho => ⟨?_, ?_, fun rest => ?_⟩⟩
  · intro t
    rw [hsh]
    cases hl : inp.logEnabled <;> cases ho : args.once <;> simp
  · intro a b
    rw [hsh]
    cases hl : inp.logEnabled <;> cases ho : args.once <;> simp
  · intro a b
    rw [hsh]
    cases hl : inp.logEnabled <;> cases ho : args.once <;> simp
  · rw [hsh, ho]
    cases hl : inp.logEnabled <;> simp
  · intro s
    rw [hsh, ho]
    cases hl : inp.logEnabled <;> simp
  · simp [loopRun, ho]

/-- C2: in an iteration where the apply call returns a changed outcome
and indexing is enabled, an import status log entry timestamped with
the loop start time recorded before the apply call is written, the
boundary indexing phase occurs strictly before the ranked indexing
phase, the indexed flag is set to true, an index status log entry
timestamped at index start is written, no sleep occurs, and in
continuous mode the next iteration follows directly. -/
theorem changed_iteration_with_indexing (args : Args) (cfg : Config) (inp : IterInput)
    (hc : inp.state.changed = true) (hi : args.do_index = true) :
    Event.logStatusEv inp.startTime "import" ∈ iterEvents args cfg inp ∧
    (∃ l1 l2 l3, iterEvents args cfg inp =
      l1 ++ Event.indexBoundaries 0 30 :: (l2 ++ Event.indexByRank 0 30 :: l3)) ∧
    Event.setIndexedEv true ∈ iterEvents args cfg inp ∧
    Event.logStatusEv inp.indexTime "index" ∈ iterEvents args cfg inp ∧
    (∀ s, Event.sleepEv s ∉ iterEvents args cfg inp) ∧
    (args.once = false →
      ∀ rest, (loopRun args cfg (inp :: rest)).1 =
        iterEvents args cfg inp ++ (loopRun args cfg rest).1) := by
  have hsh := iterEvents_changed args cfg inp hc hi
  refine ⟨?_, ?_, ?_, ?_, ?_, fun ho rest => ?_⟩
  · rw [hsh]
    cases hl : inp.logEnabled <;> simp
  · refine ⟨[Event.connOpen, Event.applyCall, Event.logStatusEv inp.startTime "import",
      Event.getStatusEv, Event.connClose, Event.indexerCreate (indexerThreads args)],
      [], Event.connOpen :: Event.setIndexedEv true ::
        Event.logStatusEv inp.indexTime "index" :: Event.connClose ::
        (if inp.logEnabled then
          [Event.reportEv (report_update inp.batchdate inp.startTime
            (some inp.indexTime) inp.endTime)]
        else []), ?_⟩
    rw [hsh]
    simp
  · rw [hsh]
    cases hl : inp.logEnabled <;> simp
  · rw [hsh]
    cases hl : inp.logEnabled <;> simp
  · intro s
    rw [hsh]
    cases hl : inp.logEnabled <;> simp
  · simp [loopRun, ho]

/-- C7: every iteration reads the batch timestamp back from the status
store through get_status after the apply call, whatever the outcome of
the apply call was. -/
theorem get_status_after_apply (args : Args) (cfg : Config) (inp : IterInput) :
    ∃ l1 l2, iterEvents args cfg inp =
      Event.connOpen :: Event.applyCall :: (l1 ++ Event.getStatusEv :: l2) := by
  cases hc : inp.state.changed
  · refine ⟨[], Event.connClose ::
      ((if inp.logEnabled then
          [Event.reportEv (report_update inp.batchdate inp.startTime none inp.endTime)]
        else [])
       ++ (if args.once then [] else [Event.sleepEv cfg.REPLICATION_RECHECK_INTERVAL])), ?_⟩
    rw [iterEvents_noChanges args cfg inp hc]
    simp
  · cases hi : args.do_index
    · refine ⟨[Event.logStatusEv inp.startTime "import"], Event.connClose ::
        (if inp.logEnabled then
          [Event.reportEv (report_update inp.batchdate inp.startTime none inp.endTime)]
        else []), ?_⟩
      rw [iterEvents_changed_noIndex args cfg inp hc hi]
      simp
    · refine ⟨[Event.logStatusEv inp.startTime "import"], Event.connClose ::
        Event.indexerCreate (indexerThreads args) ::
        Event.indexBoundaries 0 30 :: Event.indexByRank 0 30 ::
        Event.connOpen :: Event.setIndexedEv true ::
        Event.logStatusEv inp.indexTime "index" :: Event.connClose ::
        (if inp.logEnabled then
          [Event.reportEv (report_update inp.batchdate inp.startTime
            (some inp.indexTime) inp.endTime)]
        else []), ?_⟩
      rw [iterEvents_changed args cfg inp hc hi]
      simp

/-- C10: the indexed_only entry of the params dictionary is the
negation of the once flag: true exactly in continuous mode, false
exactly in single run mode. -/
theorem indexed_only_iff_continuous (args : Args) (cfg : Config) :
    (mkParams args cfg).indexed_only = !args.once ∧
    ((mkParams args cfg).indexed_only = true ↔ args.once = false) := by
  cases ho : args.once <;> simp [mkParams, ho]

/-- C3: when the replication base URL contains the Geofabrik download
host and the configured update interval is below 86400 seconds, update
fails immediately with the interval usage error, before the loop runs
and before any event (in particular any network call) happens; with an
interval of at least 86400 seconds, or with a URL not naming that host,
this validation never produces that error. -/
theorem rate_limit_guard (args : Args) (cfg : Config) (inputs : List IterInput) :
    (strContains cfg.REPLICATION_URL "download.geofabrik.de" = true →
      cfg.REPLICATION_UPDATE_INTERVAL < 86400 →
      update args cfg inputs = Except.error intervalError) ∧
    (86400 ≤ cfg.REPLICATION_UPDATE_INTERVAL →
      update args cfg inputs ≠ Except.error intervalError) ∧
    (strContains cfg.REPLICATION_URL "download.geofabrik.de" = false →
      update args cfg inputs ≠ Except.error intervalError) := by
  refine ⟨fun h1 h2 => ?_, fun h1 => ?_, fun h1 => ?_⟩
  · have hg : geofabrikGuard (mkParams args cfg) = true := by
      simp [geofabrikGuard, mkParams, h1, h2]
    simp [update, hg]
  · have hg : geofabrikGuard (mkParams args cfg) = false := by
      simp only [geofabrikGuard, mkParams, Bool.and_eq_false_iff, decide_eq_false_iff_not,
        not_lt]
      exact Or.inr h1
    simp only [update, hg, Bool.false_eq_true, if_false]
    split
    · simp [noIndexError, intervalError]
    · simp
  · have hg : geofabrikGuard (mkParams args cfg) = false := by
      simp [geofabrikGuard, mkParams, h1]
    simp only [update, hg, Bool.false_eq_true, if_false]
    split
    · simp [noIndexError, intervalError]
    · simp

/-- C4: when the Geofabrik check passes, requesting continuous mode
with indexing disabled makes update fail with the no-index usage error
before the loop runs; continuous mode with indexing enabled and single
run mode with either indexing flag proceed into the loop. -/
theorem continuous_without_indexing_guard (args : Args) (cfg : Config)
    (inputs : List IterInput)
    (hg : geofabrikGuard (mkParams args cfg) = false) :
    (args.once = false → args.do_index = false →
      update args cfg inputs = Except.error noIndexError) ∧
    (args.once = false → args.do_index = true →
      update args cfg inputs =
        Except.ok ((loopRun args cfg inputs).1,
          (loopRun args cfg inputs).2.map UpdateState.value)) ∧
    (args.once = true →
      update args cfg inputs =
        Except.ok ((loopRun args cfg inputs).1,
          (loopRun args cfg inputs).2.map UpdateState.value)) := by
  refine ⟨fun h1 h2 => ?_, fun h1 h2 => ?_, fun h1 => ?_⟩
  · simp [update, hg, h1, h2]
  · simp [update, hg, h1, h2]
  · simp [update, hg, h1]

/-- C5: in single run mode, whatever the outcome of the apply call, the
loop executes exactly one full iteration and update returns that
iteration trace together with the numeric value of the final outcome as
the exit code; any further scripted iterations are never reached. -/
theorem single_run_termination (args : Args) (cfg : Config) (inp : IterInput)
    (rest : List IterInput) (honce : args.once = true)
    (hg : geofabrikGuard (mkParams args cfg) = false) :
    update args cfg (inp :: rest) =
      Except.ok (iterEvents args cfg inp, some inp.state.value) := by
  simp [update, hg, honce, loopRun]

/-- C6 counterexample: with loop start T0 = 0, index start T0 plus 5
seconds, report time T0 plus 20 seconds and batch timestamp T0 minus
100 seconds, the remaining backlog printed by report_update is 120
seconds (report time minus batch timestamp), not the 100 seconds the
claim states. -/
theorem report_example_backlog_cx :
    (report_update (-(100 * usecPerSec)) 0 (some (5 * usecPerSec))
      (20 * usecPerSec)).remainingBacklog = 120 ∧
    (report_update (-(100 * usecPerSec)) 0 (some (5 * usecPerSec))
      (20 * usecPerSec)).remainingBacklog ≠ 100 := by
  decide

/-- C6 amended: for timestamps loop start T0, index start T0 plus 5
seconds, report time T0 plus 20 seconds and batch timestamp T0 minus
100 seconds, the report shows import duration 5 seconds, index duration
15 seconds, total duration 20 seconds and backlog 120 seconds, with
durations truncated to whole seconds; the index duration is shown
exactly when indexing ran, that is when the index start time is set. -/
theorem report_values (T0 : Int) :
    report_update (T0 - 100 * usecPerSec) T0 (some (T0 + 5 * usecPerSec))
        (T0 + 20 * usecPerSec) =
      { importTime := 5, indexTime := some 15, totalTime := 20,
        remainingBacklog := 120 } ∧
    (∀ b s e, (report_update b s none e).indexTime = none) ∧
    (∀ b s i e, (report_update b s (some i) e).indexTime =
      some (round_time (e - i))) := by
  refine ⟨?_, fun b s e => rfl, fun b s i e => rfl⟩
  have h5 : T0 + 5 * usecPerSec - T0 = 5 * usecPerSec := by ring
  have h15 : T0 + 20 * usecPerSec - (T0 + 5 * usecPerSec) = 15 * usecPerSec := by ring
  have h20 : T0 + 20 * usecPerSec - T0 = 20 * usecPerSec := by ring
  have h120 : T0 + 20 * usecPerSec - (T0 - 100 * usecPerSec) = 120 * usecPerSec := by
    ring
  simp only [report_update, Option.getD_some, Option.map_some', h5, h15, h20, h120,
    Report.mk.injEq]
  refine ⟨by decide, by decide, by decide, by decide⟩

/-- C8: every iteration opens a fresh store connection as its first
step; walking the trace, the count of open connections is zero at every
indexing phase and at every sleep, and zero again at the end of the
iteration; and when indexing runs, the trace contains the segment in
which the first connection is closed, the indexer runs both phases with
no connection open, and a separate connection is opened and closed
around the post indexing status writes. -/
theorem connection_discipline (args : Args) (cfg : Config) (inp : IterInput) :
    (iterEvents args cfg inp).head? = some Event.connOpen ∧
    connsOK 0 (iterEvents args cfg inp) = true ∧
    openConns (iterEvents args cfg inp) = 0 ∧
    (inp.state.changed = true → args.do_index = true →
      ∃ l1 l2, iterEvents args cfg inp =
        l1 ++ Event.connClose :: Event.indexerCreate (indexerThreads args) ::
          Event.indexBoundaries 0 30 :: Event.indexByRank 0 30 ::
          Event.connOpen :: Event.setIndexedEv true ::
          Event.logStatusEv inp.indexTime "index" :: Event.connClose :: l2) := by
  refine ⟨?_, ?_, ?_, fun hc hi => ?_⟩
  · simp [iterEvents]
  · cases hc : inp.state.changed <;> cases hi : args.do_index <;>
      cases hl : inp.logEnabled <;> cases ho : args.once <;>
      simp [iterEvents, hc, hi, hl, ho, connsOK, connDelta, mustBeUnconnected]
  · cases hc : inp.state.changed <;> cases hi : args.do_index <;>
      cases hl : inp.logEnabled <;> cases ho : args.once <;>
      simp [iterEvents, hc, hi, hl, ho, openConns, connDelta]
  · refine ⟨[Event.connOpen, Event.applyCall, Event.logStatusEv inp.startTime "import",
      Event.getStatusEv],
      (if inp.logEnabled then
        [Event.reportEv (report_update inp.batchdate inp.startTime
          (some inp.indexTime) inp.endTime)]
      else []), ?_⟩
    rw [iterEvents_changed args cfg inp hc hi]
    simp

/-- C9: whenever the indexing engine is invoked, both phases run over
the fixed rank range 0 to 30; moreover every boundary phase event and
every ranked phase event in any iteration trace carries exactly the
bounds 0 and 30. -/
theorem index_rank_range (args : Args) (cfg : Config) (inp : IterInput) :
    (inp.state.changed = true → args.do_index = true →
      Event.indexBoundaries 0 30 ∈ iterEvents args cfg inp ∧
      Event.indexByRank 0 30 ∈ iterEvents args cfg inp) ∧
    (∀ a b, Event.indexBoundaries a b ∈ iterEvents args cfg inp → a = 0 ∧ b = 30) ∧
    (∀ a b, Event.indexByRank a b ∈ iterEvents args cfg inp → a = 0 ∧ b = 30) := by
  refine ⟨fun hc hi => ?_, fun a b => ?_, fun a b => ?_⟩
  · rw [iterEvents_changed args cfg inp hc hi]
    cases hl : inp.logEnabled <;> simp
  · cases hc : inp.state.changed <;> cases hi : args.do_index <;>
      cases hl : inp.logEnabled <;> cases ho : args.once <;>
      simp [iterEvents, hc, hi, hl, ho]
  · cases hc : inp.state.changed <;> cases hi : args.do_index <;>
      cases hl : inp.logEnabled <;> cases ho : args.once <;>
      simp [iterEvents, hc, hi, hl, ho]

/-- Witness for C1 at a concrete no-changes iteration in continuous
mode. -/
theorem noop_iteration_witness :
    Event.logStatusEv 0 "import" ∉ iterEvents argsCont cfg0 inpNC ∧
    Event.indexBoundaries 0 30 ∉ iterEvents argsCont cfg0 inpNC ∧
    Event.indexByRank 0 30 ∉ iterEvents argsCont cfg0 inpNC ∧
    (iterEvents argsCont cfg0 inpNC).getLast? =
      some (Event.sleepEv cfg0.REPLICATION_RECHECK_INTERVAL) ∧
    (60 : Int) = cfg0.REPLICATION_RECHECK_INTERVAL ∧
    (loopRun argsCont cfg0 (inpNC :: [])).1 =
      iterEvents argsCont cfg0 inpNC ++ (loopRun argsCont cfg0 []).1 :=
  ⟨(noop_iteration argsCont cfg0 inpNC rfl).1 0,
   (noop_iteration argsCont cfg0 inpNC rfl).2.1 0 30,
   (noop_iteration argsCont cfg0 inpNC rfl).2.2.1 0 30,
   ((noop_iteration argsCont cfg0 inpNC rfl).2.2.2 rfl).1,
   ((noop_iteration argsCont cfg0 inpNC rfl).2.2.2 rfl).2.1 60 (by decide),
   ((noop_iteration argsCont cfg0 inpNC rfl).2.2.2 rfl).2.2 []⟩

/-- Witness for C2 at a concrete changed iteration with indexing in
continuous mode. -/
theorem changed_iteration_witness :
    Event.logStatusEv 0 "import" ∈ iterEvents argsCont cfg0 inpCH ∧
    Event.setIndexedEv true ∈ iterEvents argsCont cfg0 inpCH ∧
    Event.logStatusEv (1 * usecPerSec) "index" ∈ iterEvents argsCont cfg0 inpCH ∧
    Event.sleepEv 60 ∉ iterEvents argsCont cfg0 inpCH ∧
    (loopRun argsCont cfg0 (inpCH :: [])).1 =
      iterEvents argsCont cfg0 inpCH ++ (loopRun argsCont cfg0 []).1 :=
  ⟨(changed_iteration_with_indexing argsCont cfg0 inpCH rfl rfl).1,
   (changed_iteration_with_indexing argsCont cfg0 inpCH rfl rfl).2.2.1,
   (changed_iteration_with_indexing argsCont cfg0 inpCH rfl rfl).2.2.2.1,
   (changed_iteration_with_indexing argsCont cfg0 inpCH rfl rfl).2.2.2.2.1 60,
   (changed_iteration_with_indexing argsCont cfg0 inpCH rfl rfl).2.2.2.2.2 rfl []⟩

/-- Witness for C3: the Geofabrik host with a low interval is rejected,
the same host with a one day interval passes, and a short interval on a
different host passes. -/
theorem rate_limit_guard_witness :
    update argsOnce cfgGeo [] = Except.error intervalError ∧
    update argsOnce cfgGeoSlow [] ≠ Except.error intervalError ∧
    update argsOnce cfg0 [] ≠ Except.error intervalError :=
  ⟨(rate_limit_guard argsOnce cfgGeo []).1 (by decide) (by decide),
   (rate_limit_guard argsOnce cfgGeoSlow []).2.1 (by decide),
   (rate_limit_guard argsOnce cfg0 []).2.2 (by decide)⟩

/-- Witness for C4: continuous mode without indexing is rejected while
continuous mode with indexing and single run mode proceed. -/
theorem continuous_guard_witness :
    update argsContNoIdx cfg0 [] = Except.error noIndexError ∧
    update argsCont cfg0 [] =
      Except.ok ((loopRun argsCont cfg0 []).1,
        (loopRun argsCont cfg0 []).2.map UpdateState.value) ∧
    update argsOnce cfg0 [] =
      Except.ok ((loopRun argsOnce cfg0 []).1,
        (loopRun argsOnce cfg0 []).2.map UpdateState.value) :=
  ⟨(continuous_without_indexing_guard argsContNoIdx cfg0 [] (by decide)).1 rfl rfl,
   (continuous_without_indexing_guard argsCont cfg0 [] (by decide)).2.1 rfl rfl,
   (continuous_without_indexing_guard argsOnce cfg0 [] (by decide)).2.2 rfl⟩

/-- Witness for C5 at a concrete single run invocation with a changed
outcome. -/
theorem single_run_termination_witness :
    update argsOnce cfg0 (inpCH :: [inpNC]) =
      Except.ok (iterEvents argsOnce cfg0 inpCH, some 0) :=
  single_run_termination argsOnce cfg0 inpCH [inpNC] rfl (by decide)

/-- Witness for C8 at a concrete changed iteration with indexing. -/
theorem connection_discipline_witness :
    (iterEvents argsCont cfg0 inpCH).head? = some Event.connOpen ∧
    connsOK 0 (iterEvents argsCont cfg0 inpCH) = true ∧
    openConns (iterEvents argsCont cfg0 inpCH) = 0 ∧
    (∃ l1 l2, iterEvents argsCont cfg0 inpCH =
      l1 ++ Event.connClose :: Event.indexerCreate (indexerThreads argsCont) ::
        Event.indexBoundaries 0 30 :: Event.indexByRank 0 30 ::
        Event.connOpen :: Event.setIndexedEv true ::
        Event.logStatusEv (1 * usecPerSec) "index" :: Event.connClose :: l2) :=
  ⟨(connection_discipline argsCont cfg0 inpCH).1,
   (connection_discipline argsCont cfg0 inpCH).2.1,
   (connection_discipline argsCont cfg0 inpCH).2.2.1,
   (connection_discipline argsCont cfg0 inpCH).2.2.2 rfl rfl⟩

/-- Witness for C9 at a concrete changed iteration with indexing. -/
theorem index_rank_range_witness :
    Event.indexBoundaries 0 30 ∈ iterEvents argsCont cfg0 inpCH ∧
    Event.indexByRank 0 30 ∈ iterEvents argsCont cfg0 inpCH ∧
    ((0 : Int) = 0 ∧ (30 : Int) = 30) :=
  ⟨((index_rank_range argsCont cfg0 inpCH).1 rfl rfl).1,
   ((index_rank_range argsCont cfg0 inpCH).1 rfl rfl).2,
   (index_rank_range argsCont cfg0 inpCH).2.1 0 30
     ((index_rank_range argsCont cfg0 inpCH).1 rfl rfl).1⟩

end Replication
